import Mathlib

/-!
Verification of the intersection-module utility layer of
`planning/behavior_velocity_intersection_module` and of selected parts of
`simulator/simple_planning_simulator`, by a shallow embedding in Lean 4.

Conventions of the embedding:
* `lanelet::ConstLanelet` and `lanelet::CompoundPolygon3d` are opaque map
  entities; only their identity matters here, so they are wrapped integers.
* `size_t` path indices become `Nat`; intermediate signed index arithmetic
  (C++ `int`) becomes `Int`, with `Int.toNat` at the points where the code
  clamps or casts back to `size_t`.
* metric quantities (velocities, accelerations, distances) become `ℚ`;
  the C++ code uses `double`/`float`, whose rounding is outside the scope
  of this embedding, so real-valued arithmetic is modelled exactly.
* `std::optional` becomes `Option`, `std::vector` becomes `List`.
-/

namespace BehaviorVelocityPlanner

/-- Opaque stand-in for `lanelet::ConstLanelet`: identified by its lane id. -/
structure ConstLanelet where
  id : Int
  deriving DecidableEq

/-- Opaque stand-in for `lanelet::CompoundPolygon3d`: identified by an id. -/
structure CompoundPolygon3d where
  id : Int
  deriving DecidableEq

/-- Struct `InterpolatedPathInfo` (util_type.hpp): the resampled path is reduced to
the per-point lane-id tags, which is all the utility layer reads from it. -/
structure InterpolatedPathInfo where
  pathLaneIds : List (List Int)
  ds : ℚ
  lane_id : Int
  associative_lane_ids : List Int
  lane_id_interval : Option (Nat × Nat)
  deriving DecidableEq

/-- Struct `IntersectionLanelets` (util_type.hpp): the five lanelet sets, their
polygon projections, the prioritized flag and the two cached first areas,
exactly the data members of the C++ struct. -/
structure IntersectionLanelets where
  attention_ : List ConstLanelet
  attention_non_preceding_ : List ConstLanelet
  conflicting_ : List ConstLanelet
  adjacent_ : List ConstLanelet
  occlusion_attention_ : List ConstLanelet
  attention_area_ : List CompoundPolygon3d
  attention_non_preceding_area_ : List CompoundPolygon3d
  conflicting_area_ : List CompoundPolygon3d
  adjacent_area_ : List CompoundPolygon3d
  occlusion_attention_area_ : List CompoundPolygon3d
  is_prioritized_ : Bool
  first_conflicting_area_ : Option CompoundPolygon3d
  first_attention_area_ : Option CompoundPolygon3d
  deriving DecidableEq

/-- Accessor `IntersectionLanelets::attention()` (util_type.hpp line 68):
`is_prioritized_ ? attention_non_preceding_ : attention_`. -/
def IntersectionLanelets.attention (il : IntersectionLanelets) : List ConstLanelet :=
  if il.is_prioritized_ then il.attention_non_preceding_ else il.attention_

/-- Accessor `IntersectionLanelets::conflicting()` (util_type.hpp line 72). -/
def IntersectionLanelets.conflicting (il : IntersectionLanelets) : List ConstLanelet :=
  il.conflicting_

/-- Accessor `IntersectionLanelets::adjacent()` (util_type.hpp line 73). -/
def IntersectionLanelets.adjacent (il : IntersectionLanelets) : List ConstLanelet :=
  il.adjacent_

/-- Accessor `IntersectionLanelets::occlusion_attention()` (util_type.hpp
line 74): `is_prioritized_ ? attention_non_preceding_ : occlusion_attention_`. -/
def IntersectionLanelets.occlusion_attention (il : IntersectionLanelets) : List ConstLanelet :=
  if il.is_prioritized_ then il.attention_non_preceding_ else il.occlusion_attention_

/-- Accessor `IntersectionLanelets::attention_area()` (util_type.hpp line 78):
`is_prioritized_ ? attention_non_preceding_area_ : attention_area_`. -/
def IntersectionLanelets.attention_area (il : IntersectionLanelets) : List CompoundPolygon3d :=
  if il.is_prioritized_ then il.attention_non_preceding_area_ else il.attention_area_

/-- Accessor `IntersectionLanelets::conflicting_area()` (util_type.hpp line 82). -/
def IntersectionLanelets.conflicting_area (il : IntersectionLanelets) : List CompoundPolygon3d :=
  il.conflicting_area_

/-- Accessor `IntersectionLanelets::adjacent_area()` (util_type.hpp line 86). -/
def IntersectionLanelets.adjacent_area (il : IntersectionLanelets) : List CompoundPolygon3d :=
  il.adjacent_area_

/-- Accessor `IntersectionLanelets::occlusion_attention_area()` (util_type.hpp
line 87): it returns `occlusion_attention_area_` unconditionally, with no
branch on `is_prioritized_`. -/
def IntersectionLanelets.occlusion_attention_area (il : IntersectionLanelets) :
    List CompoundPolygon3d :=
  il.occlusion_attention_area_

/-- Accessor `IntersectionLanelets::first_conflicting_area()` (util_type.hpp line 91). -/
def IntersectionLanelets.first_conflicting_area (il : IntersectionLanelets) :
    Option CompoundPolygon3d :=
  il.first_conflicting_area_

/-- Accessor `IntersectionLanelets::first_attention_area()` (util_type.hpp line 95). -/
def IntersectionLanelets.first_attention_area (il : IntersectionLanelets) :
    Option CompoundPolygon3d :=
  il.first_attention_area_

/-- Struct `IntersectionStopLines` (util_type.hpp lines 125-139): a mandatory closest
index, four optional stop-line indices and a mandatory pass-judge index. -/
structure IntersectionStopLines where
  closest_idx : Nat
  stuck_stop_line : Option Nat
  default_stop_line : Option Nat
  first_attention_stop_line : Option Nat
  occlusion_peeking_stop_line : Option Nat
  pass_judge_line : Nat
  deriving DecidableEq

/-- The complete enumeration of the `std::optional` index fields of
`IntersectionStopLines` (util_type.hpp lines 130-136): `stuck_stop_line`,
`default_stop_line`, `first_attention_stop_line`,
`occlusion_peeking_stop_line`.  `closest_idx` and `pass_judge_line` are plain
`size_t` fields and therefore do not appear. -/
def IntersectionStopLines.optionalFields (s : IntersectionStopLines) : List (Option Nat) :=
  [s.stuck_stop_line, s.default_stop_line, s.first_attention_stop_line,
    s.occlusion_peeking_stop_line]

/-- Enum `TrafficPrioritizedLevel` (util_type.hpp lines 156-163). -/
inductive TrafficPrioritizedLevel where
  | FULLY_PRIORITIZED
  | PARTIALLY_PRIORITIZED
  | NOT_PRIORITIZED
  deriving DecidableEq

end BehaviorVelocityPlanner

namespace SimplePlanningSimulator

/-- The constants of `autoware_auto_vehicle_msgs::msg::GearCommand` used by
`set_input` (simple_planning_simulator_core.cpp lines 438-449). -/
def GearCommand_NONE : Nat := 0

/-- Constant `GearCommand::REVERSE`. -/
def GearCommand_REVERSE : Nat := 20

/-- Constant `GearCommand::REVERSE_2`. -/
def GearCommand_REVERSE_2 : Nat := 21

/-- The vehicle-model kinds distinguished by `set_input`
(simple_planning_simulator_core.cpp lines 451-463). -/
inductive VehicleModelType where
  | IDEAL_STEER_VEL
  | DELAY_STEER_VEL
  | IDEAL_STEER_ACC
  | DELAY_STEER_ACC
  | IDEAL_STEER_ACC_GEARED
  | DELAY_STEER_ACC_GEARED
  deriving DecidableEq

/-- The acceleration value computed by `SimplePlanningSimulator::set_input`
(simple_planning_simulator_core.cpp lines 444-449):
`float acc = accel + acc_by_slope;` then `acc = 0.0` when the gear is
`GearCommand::NONE`, and `acc = -accel - acc_by_slope` when the gear is
`REVERSE` or `REVERSE_2`. -/
def set_input_acc (gear : Nat) (accel acc_by_slope : ℚ) : ℚ :=
  if gear = GearCommand_NONE then 0
  else if gear = GearCommand_REVERSE ∨ gear = GearCommand_REVERSE_2 then
    -accel - acc_by_slope
  else accel + acc_by_slope

/-- The input vector assembled by `SimplePlanningSimulator::set_input`
(simple_planning_simulator_core.cpp lines 451-464): `(vel, steer)` for the
velocity-input models and `(acc, steer)` for the acceleration-input models. -/
def set_input (mt : VehicleModelType) (gear : Nat) (vel accel steer acc_by_slope : ℚ) :
    List ℚ :=
  match mt with
  | .IDEAL_STEER_VEL => [vel, steer]
  | .DELAY_STEER_VEL => [vel, steer]
  | _ => [set_input_acc gear accel acc_by_slope, steer]

/-- The fields of `nav_msgs::msg::Odometry` touched by
`add_measurement_noise` (simple_planning_simulator_core.cpp lines 506-521). -/
structure Odometry where
  position_x : ℚ
  position_y : ℚ
  yaw : ℚ
  twist_linear_x : ℚ
  deriving DecidableEq

/-- The field of `autoware_auto_vehicle_msgs::msg::VelocityReport` touched by
`add_measurement_noise`. -/
structure VelocityReport where
  longitudinal_velocity : ℚ
  deriving DecidableEq

/-- The field of `autoware_auto_vehicle_msgs::msg::SteeringReport` touched by
`add_measurement_noise`. -/
structure SteeringReport where
  steering_tire_angle : ℚ
  deriving DecidableEq

/-- Method `SimplePlanningSimulator::add_measurement_noise`
(simple_planning_simulator_core.cpp lines 506-521).  The random engine is
modelled as the list of samples it will produce, consumed in program order:
position x, position y, velocity, yaw, steering.  The single draw
`velocity_noise` is added both to `odom.twist.twist.linear.x` and to
`vel.longitudinal_velocity`. -/
def add_measurement_noise (noise : List ℚ) (odom : Odometry) (vel : VelocityReport)
    (steer : SteeringReport) : Odometry × VelocityReport × SteeringReport :=
  let pos_noise_x := noise.getD 0 0
  let pos_noise_y := noise.getD 1 0
  let velocity_noise := noise.getD 2 0
  let rpy_noise := noise.getD 3 0
  let steer_noise := noise.getD 4 0
  (⟨odom.position_x + pos_noise_x, odom.position_y + pos_noise_y,
      odom.yaw + rpy_noise, odom.twist_linear_x + velocity_noise⟩,
    ⟨vel.longitudinal_velocity + velocity_noise⟩,
    ⟨steer.steering_tire_angle + steer_noise⟩)

end SimplePlanningSimulator

namespace BehaviorVelocityPlanner

/-- Helper `hasLaneIds` (declared util.hpp line 48; implementation not among
the sources).  Modelled from the spec: a path point carries a set of lane-id
tags, and it matches when one of them lies in the given id set. -/
def hasLaneIds (point_ids : List Int) (ids : List Int) : Bool :=
  point_ids.any (fun i => ids.contains i)

/-- Modelled from the spec: `findLaneIdsInterval` (declared util.hpp line 50;
implementation not among the sources).  Spec 4.1: scan the point sequence for
the maximal contiguous run whose lane id is in the associative set — the first
such run — and return its first and last index, or nothing when no point
matches. -/
def findLaneIdsInterval (ps : List (List Int)) (ids : List Int) : Option (Nat × Nat) :=
  match ps with
  | [] => none
  | p :: rest =>
    if hasLaneIds p ids then
      some (0, (ps.takeWhile (fun q => hasLaneIds q ids)).length - 1)
    else
      (findLaneIdsInterval rest ids).map (fun ivl => (ivl.1 + 1, ivl.2 + 1))

/-- Modelled from the spec: `generateInterpolatedPath` (declared util.hpp
line 122; implementation not among the sources).  Spec 4.1: resample the path
at arc-length step `ds` while preserving lane-id tags by nearest-index
carry-over — the resampling itself is geometric and is modelled as keeping
the tag sequence — then scan the resampled sequence for the maximal
contiguous run whose lane id is in the associative set; return nothing if no
occurrence is found. -/
def generateInterpolatedPath (lane_id : Int) (associative_lane_ids : List Int)
    (input_path : List (List Int)) (ds : ℚ) : Option InterpolatedPathInfo :=
  match findLaneIdsInterval input_path associative_lane_ids with
  | none => none
  | some ivl => some ⟨input_path, ds, lane_id, associative_lane_ids, some ivl⟩

/-- Abstraction of the geometric inputs of `generateIntersectionStopLines`:
every polygon/path intersection is reduced to the interpolated-path index at
which it happens, with signed (`Int`) arithmetic for the margin offsets as in
the C++ code.  `conf_entry`/`att_entry` are the first path indices inside the
first conflicting/detection areas (absent when the path never enters them),
`det_far` is the far boundary index of the detection area, `map_stop` the
map-declared stop-line index, `lane_start` the start index of the
intersection lane, and `margin`/`peeking` the stop-line margin and peeking
offset converted to index distances. -/
structure StopLineParams where
  conf_entry : Option Int
  att_entry : Option Int
  det_far : Int
  map_stop : Option Int
  lane_start : Int
  closest : Nat
  margin : Int
  peeking : Int
  use_stuck_stopline : Bool
  deriving DecidableEq

/-- Modelled from the spec: the stuck stop line of `generateStuckStopLine` /
`generateIntersectionStopLines` (declared util.hpp lines 70, 76;
implementations not among the sources).  Spec 4.4: the first path index
entering the first conflicting area — or the start of the intersection lane
itself when `use_stuck_stopline` is set — offset backward by the safety
margin and clamped to not exceed the attention-area entry point `att`;
nothing when the conflicting polygon never intersects the path. -/
def stuckStopLineRaw (p : StopLineParams) (att : Int) : Option Int :=
  p.conf_entry.map (fun c =>
    min ((if p.use_stuck_stopline then p.lane_start else c) - p.margin) att)

/-- Modelled from the spec: the default stop line of
`generateIntersectionStopLines`.  Spec 4.4: the map-declared stop line if
present and forward of the stuck line, else the conflicting-area entry offset
backward by the margin. -/
def defaultStopLineRaw (p : StopLineParams) (att : Int) : Option Int :=
  match p.map_stop with
  | some m =>
    match stuckStopLineRaw p att with
    | some s => if s ≤ m then some m else p.conf_entry.map (fun c => c - p.margin)
    | none => some m
  | none => p.conf_entry.map (fun c => c - p.margin)

/-- Modelled from the spec: the pass-judge line of
`generateIntersectionStopLines` before the final clamp.  Spec 4.4: the
minimum of the stuck and first-attention stop lines, floored at zero (the
flooring is the `Int.toNat` applied by the caller). -/
def passJudgeRaw (p : StopLineParams) : Int :=
  match p.att_entry with
  | none => 0
  | some att =>
    match stuckStopLineRaw p att with
    | some s => min s (att - p.margin)
    | none => att - p.margin

/-- Modelled from the spec: `generateIntersectionStopLines` (declared
util.hpp line 76; implementation not among the sources).  Spec 4.4 computes,
on the interpolated path: the stuck stop line; the default stop line (absent
when its value is computed negative, cf. util_type.hpp line 131); the
first-attention stop line, the first detection-area entry offset backward by
the margin (absent when computed negative, cf. util_type.hpp line 133); the
occlusion-peeking stop line, the detection-area entry offset forward by the
peeking distance and clamped to not exceed the far boundary of the detection
area; and the pass-judge line, the minimum of the stuck and first-attention
stop lines floored at zero.  The whole result is absent when the path never
enters the detection area (cf. util_type.hpp line 135). -/
def generateIntersectionStopLines (p : StopLineParams) : Option IntersectionStopLines :=
  match p.att_entry with
  | none => none
  | some att =>
    some ⟨p.closest,
      (stuckStopLineRaw p att).map Int.toNat,
      (defaultStopLineRaw p att).bind (fun d => if d < 0 then none else some d.toNat),
      (if att - p.margin < 0 then none else some (att - p.margin).toNat),
      some (min (att + p.peeking) p.det_far).toNat,
      (passJudgeRaw p).toNat⟩

/-- Boolean form of the ordering property claimed for the optional indices of
an `IntersectionStopLines` value: stuck ≤ default ≤ first-attention ≤
occlusion-peeking whenever all four are present. -/
def stopLinesOrdered (s : IntersectionStopLines) : Bool :=
  match s.stuck_stop_line, s.default_stop_line, s.first_attention_stop_line,
      s.occlusion_peeking_stop_line with
  | some a, some b, some c, some d => decide (a ≤ b) && decide (b ≤ c) && decide (c ≤ d)
  | _, _, _, _ => true

/-- Abstraction of a predicted object for the stuck-vehicle check: its scalar
speed and whether its footprint polygon overlaps the stuck-vehicle detection
area (the polygon test itself is geometric and abstracted to its outcome). -/
structure PredictedObject where
  speed : ℚ
  overlaps_stuck_area : Bool
  deriving DecidableEq

/-- Modelled from the spec: `checkStuckVehicleInIntersection` (declared
util.hpp line 130; implementation not among the sources).  Spec 4.5: for each
predicted object, the object is classified as stuck only if its speed is
below the stuck-vehicle velocity threshold and its footprint overlaps the
stuck-vehicle detection area; stuck objects are recorded in the debug data
(`stuck_targets`) and the function reports whether any object is stuck. -/
def checkStuckVehicleInIntersection : List PredictedObject → ℚ → Bool × List PredictedObject
  | [], _ => (false, [])
  | o :: rest, thr =>
    if o.speed < thr ∧ o.overlaps_stuck_area = true then
      (true, o :: (checkStuckVehicleInIntersection rest thr).2)
    else checkStuckVehicleInIntersection rest thr

/-- Among live areas paired with their interpolated-path entry index, the one
whose overlap starts earliest (first on ties). -/
def minEntryArea : List (CompoundPolygon3d × Nat) → Option (CompoundPolygon3d × Nat)
  | [] => none
  | x :: xs =>
    match minEntryArea xs with
    | none => some x
    | some y => some (if y.2 < x.2 then y else x)

/-- Modelled from the spec: the selection of the first conflicting/attention
area in `IntersectionLanelets::update`.  Spec 4.2: the first polygon is the
one whose interpolated-path overlap interval starts earliest; areas that do
not overlap the path (entry index absent) do not take part. -/
def firstOverlappingArea (areas : List (CompoundPolygon3d × Option Nat)) :
    Option CompoundPolygon3d :=
  (minEntryArea (areas.filterMap (fun ae => ae.2.map (fun e => (ae.1, e))))).map Prod.fst

/-- Modelled from the spec: `IntersectionLanelets::update` (declared
util_type.hpp line 67; implementation not among the sources).  Spec 3/4.2:
record the prioritized flag, and fill `first_conflicting_area_` and
`first_attention_area_` with the live area whose interpolated-path overlap
starts earliest — but only when the field is still unset: once set it is
never recomputed.  The path overlap computation is abstracted into per-area
entry indices. -/
def IntersectionLanelets.update (il : IntersectionLanelets) (is_prioritized : Bool)
    (conflicting_entries attention_entries : List (CompoundPolygon3d × Option Nat)) :
    IntersectionLanelets :=
  ⟨il.attention_, il.attention_non_preceding_, il.conflicting_, il.adjacent_,
    il.occlusion_attention_, il.attention_area_, il.attention_non_preceding_area_,
    il.conflicting_area_, il.adjacent_area_, il.occlusion_attention_area_,
    is_prioritized,
    (match il.first_conflicting_area_ with
      | some a => some a
      | none => firstOverlappingArea conflicting_entries),
    (match il.first_attention_area_ with
      | some a => some a
      | none => firstOverlappingArea attention_entries)⟩

/-- The live lanelet sets and polygon projections produced by one routing
graph traversal (the traversal itself is map-geometric and abstracted into
its outcome). -/
structure LiveLaneletSets where
  attention : List ConstLanelet
  attention_non_preceding : List ConstLanelet
  conflicting : List ConstLanelet
  adjacent : List ConstLanelet
  occlusion_attention : List ConstLanelet
  attention_area : List CompoundPolygon3d
  attention_non_preceding_area : List CompoundPolygon3d
  conflicting_area : List CompoundPolygon3d
  adjacent_area : List CompoundPolygon3d
  occlusion_attention_area : List CompoundPolygon3d
  deriving DecidableEq

/-- Modelled from the spec: `getObjectiveLanelets` (declared util.hpp
line 56; implementation not among the sources).  Spec 3/4.2: rebuilt each
cycle from the routing graph and the assigned lanelet — abstracted here into
the resulting live sets — while the first conflicting/attention fields
persist by reuse across cycles keyed on the associative lane-id set, so the
cached values from the previous cycle with the same key are carried into the
fresh value; the prioritized flag starts unset. -/
def getObjectiveLanelets (cached_first_conflicting cached_first_attention :
    Option CompoundPolygon3d) (live : LiveLaneletSets) : IntersectionLanelets :=
  ⟨live.attention, live.attention_non_preceding, live.conflicting, live.adjacent,
    live.occlusion_attention, live.attention_area, live.attention_non_preceding_area,
    live.conflicting_area, live.adjacent_area, live.occlusion_attention_area,
    false, cached_first_conflicting, cached_first_attention⟩

/-- One planning cycle of the lanelet classifier for a fixed associative
lane-id set: `getObjectiveLanelets` with the cached first areas, followed by
`update` with that cycle's live path overlaps. -/
def intersectionLaneletsCycle
    (cache : Option CompoundPolygon3d × Option CompoundPolygon3d)
    (live : LiveLaneletSets) (is_prioritized : Bool)
    (conflicting_entries attention_entries : List (CompoundPolygon3d × Option Nat)) :
    IntersectionLanelets :=
  (getObjectiveLanelets cache.1 cache.2 live).update is_prioritized
    conflicting_entries attention_entries

/-- Colors of a traffic-signal snapshot entry relevant to
`getTrafficPrioritizedLevel`. -/
inductive TrafficSignalColor where
  | red
  | amber
  | green
  | unknown
  deriving DecidableEq

/-- Entry of the traffic-signal snapshot (`TrafficSignalStamped`): the color
of the signal for a lane and whether an arrow indicator is lit. -/
structure TrafficSignalStamped where
  color : TrafficSignalColor
  has_arrow : Bool
  deriving DecidableEq

/-- Lookup of a lane id in the traffic-signal snapshot map. -/
def lookupSignal (tl_infos : List (Int × TrafficSignalStamped)) (lane : Int) :
    Option TrafficSignalStamped :=
  (tl_infos.find? (fun kv => kv.1 = lane)).map Prod.snd

/-- Modelled from the spec: `getTrafficPrioritizedLevel` (declared util.hpp
line 115; implementation not among the sources).  Spec 3: the level is
derived from the signal state of the target lane — red-or-arrow gives
`FULLY_PRIORITIZED`, amber gives `PARTIALLY_PRIORITIZED`, green gives
`NOT_PRIORITIZED`, and an unknown or missing signal state maps to the default
`NOT_PRIORITIZED`. -/
def getTrafficPrioritizedLevel (lane : Int)
    (tl_infos : List (Int × TrafficSignalStamped)) : TrafficPrioritizedLevel :=
  match lookupSignal tl_infos lane with
  | none => .NOT_PRIORITIZED
  | some sig =>
    if sig.color = .red ∨ sig.has_arrow = true then .FULLY_PRIORITIZED
    else if sig.color = .amber then .PARTIALLY_PRIORITIZED
    else .NOT_PRIORITIZED

/-- Modelled from the spec: the per-index velocity used by
`calcIntersectionPassingTime`.  Spec 4.6: an optional override substitutes an
upstream-commanded velocity profile, floored at a minimum upstream velocity;
otherwise the target cruising velocity for the intersection is used, floored
at the minimum ego velocity. -/
def effectiveVelocity (use_upstream_velocity : Bool) (upstream_velocity : Nat → ℚ)
    (intersection_velocity minimum_ego_velocity minimum_upstream_velocity : ℚ)
    (k : Nat) : ℚ :=
  if use_upstream_velocity then max (upstream_velocity k) minimum_upstream_velocity
  else max intersection_velocity minimum_ego_velocity

/-- Recursion core of the time-distance profile: starting at index `i` with
accumulated time `t`, emit `n + 1` pairs, each step advancing the time by the
inter-point distance divided by the per-index velocity. -/
def passingTimePairs (dist v : Nat → ℚ) : Nat → Nat → ℚ → List (ℚ × ℚ)
  | i, 0, t => [(t, dist i)]
  | i, Nat.succ n, t =>
    (t, dist i) :: passingTimePairs dist v (i + 1) n (t + (dist (i + 1) - dist i) / v i)

/-- Modelled from the spec: `calcIntersectionPassingTime` (declared util.hpp
line 147; implementation not among the sources).  Spec 4.6: an ordered
sequence of (time, distance) pairs from the current closest index through the
last stop-line candidate index, starting after the given delay, under the
velocity profile of `effectiveVelocity`.  `dist` is the arc-length position
of each path index. -/
def calcIntersectionPassingTime (dist upstream_velocity : Nat → ℚ)
    (closest_idx last_intersection_stop_line_candidate_idx : Nat)
    (time_delay intersection_velocity minimum_ego_velocity : ℚ)
    (use_upstream_velocity : Bool) (minimum_upstream_velocity : ℚ) : List (ℚ × ℚ) :=
  passingTimePairs dist
    (effectiveVelocity use_upstream_velocity upstream_velocity intersection_velocity
      minimum_ego_velocity minimum_upstream_velocity)
    closest_idx (last_intersection_stop_line_candidate_idx - closest_idx) time_delay

end BehaviorVelocityPlanner

namespace BehaviorVelocityPlanner

/-- Concrete `IntersectionLanelets` value with the prioritized flag set and
distinct non-preceding / occlusion polygon lists, used to exercise the
accessors. -/
def c5Lanelets : IntersectionLanelets :=
  ⟨[], [], [], [], [], [⟨10⟩], [⟨11⟩], [], [], [⟨12⟩], true, none, none⟩

/-- Concrete `IntersectionLanelets` value with the prioritized flag unset. -/
def c5LaneletsOff : IntersectionLanelets :=
  ⟨[⟨1⟩], [⟨2⟩], [], [], [⟨3⟩], [⟨10⟩], [⟨11⟩], [], [], [⟨12⟩], false, none, none⟩

/-- Concrete stop-line inputs: conflicting-area entry at index 10,
detection-area entry at index 5 (the attention area extends upstream of the
conflicting area), no map stop line, zero margin, peeking offset 2. -/
def c1Params : StopLineParams :=
  ⟨some 10, some 5, 20, none, 0, 0, 0, 2, false⟩

/-- Concrete stop-line inputs with conflicting-area entry at index 10,
detection-area entry at index 5, margin 1 and peeking offset 2, meeting every
geometric side condition. -/
def c1GoodParams : StopLineParams :=
  ⟨some 10, some 5, 20, none, 0, 0, 1, 2, false⟩

/-- Concrete stop-line inputs with no conflicting-area entry and a margin
larger than the detection-area entry index, so the raw pass-judge value is
negative. -/
def c8Params : StopLineParams :=
  ⟨none, some 0, 10, none, 0, 0, 5, 0, false⟩

/-- Two concrete `IntersectionStopLines` values that differ only in
`closest_idx`. -/
def stopLinesA : IntersectionStopLines := ⟨0, none, none, none, none, 0⟩

/-- Companion value to `stopLinesA` with a different closest index. -/
def stopLinesB : IntersectionStopLines := ⟨1, none, none, none, none, 0⟩

/-- Live lanelet sets with every set empty. -/
def emptyLiveSets : LiveLaneletSets := ⟨[], [], [], [], [], [], [], [], [], []⟩

end BehaviorVelocityPlanner

namespace SimplePlanningSimulator

/-- C9: in `SimplePlanningSimulator::set_input`, for every commanded
Ackermann control and slope acceleration, on an acceleration-input vehicle
model: gear `NONE` forces the acceleration component of the model input to
zero regardless of the command; gear `REVERSE` or `REVERSE_2` makes it
exactly the negation of the sum of the commanded acceleration and the slope
acceleration; any other gear makes it exactly that sum. -/
theorem set_input_gear_acceleration (mt : VehicleModelType) (gear : Nat)
    (vel accel steer acc_by_slope : ℚ)
    (hmt : mt = .IDEAL_STEER_ACC ∨ mt = .DELAY_STEER_ACC ∨
      mt = .IDEAL_STEER_ACC_GEARED ∨ mt = .DELAY_STEER_ACC_GEARED) :
    (gear = GearCommand_NONE →
      (set_input mt gear vel accel steer acc_by_slope).head? = some 0) ∧
    ((gear = GearCommand_REVERSE ∨ gear = GearCommand_REVERSE_2) →
      (set_input mt gear vel accel steer acc_by_slope).head? =
        some (-(accel + acc_by_slope))) ∧
    (gear ≠ GearCommand_NONE → gear ≠ GearCommand_REVERSE →
      gear ≠ GearCommand_REVERSE_2 →
      (set_input mt gear vel accel steer acc_by_slope).head? =
        some (accel + acc_by_slope)) := by
  have hacc : ∀ g : Nat, (set_input mt g vel accel steer acc_by_slope).head? =
      some (set_input_acc g accel acc_by_slope) := by
    intro g
    rcases hmt with h | h | h | h <;> subst h <;> rfl
  refine ⟨?_, ?_, ?_⟩
  · intro h
    rw [hacc, set_input_acc, if_pos h]
  · rintro (h | h) <;>
      simp only [hacc, set_input_acc, h, GearCommand_NONE, GearCommand_REVERSE,
        GearCommand_REVERSE_2] <;> norm_num <;> ring_nf
  · intro h0 hr hr2
    rw [hacc, set_input_acc, if_neg h0, if_neg (by tauto)]

/-- Witness for C9: with gear `REVERSE` on an acceleration-input model, the
acceleration component equals the negated sum of command and slope terms. -/
theorem set_input_gear_acceleration_witness :
    (set_input .IDEAL_STEER_ACC 20 3 5 1 2).head? = some (-(5 + 2)) :=
  (set_input_gear_acceleration .IDEAL_STEER_ACC 20 3 5 1 2 (Or.inl rfl)).2.1 (Or.inl rfl)

/-- C10: `add_measurement_noise` adds the single drawn velocity-noise sample
to both the odometry longitudinal twist and the velocity report, so the
difference between the two velocity values is unchanged by noise injection. -/
theorem add_measurement_noise_preserves_velocity_difference (noise : List ℚ)
    (odom : Odometry) (vel : VelocityReport) (steer : SteeringReport) :
    (add_measurement_noise noise odom vel steer).1.twist_linear_x -
      (add_measurement_noise noise odom vel steer).2.1.longitudinal_velocity =
      odom.twist_linear_x - vel.longitudinal_velocity := by
  simp only [add_measurement_noise]
  ring

end SimplePlanningSimulator

namespace BehaviorVelocityPlanner

/-- C5 counterexample: on a concrete `IntersectionLanelets` value with the
prioritized flag set, `occlusion_attention_area()` returns the full
occlusion-attention polygon list, not the non-preceding variant, refuting the
claim that every attention-related accessor switches on the flag. -/
theorem occlusion_attention_area_ignores_priority :
    c5Lanelets.is_prioritized_ = true ∧
    c5Lanelets.occlusion_attention_area = c5Lanelets.occlusion_attention_area_ ∧
    c5Lanelets.occlusion_attention_area ≠ c5Lanelets.attention_non_preceding_area_ := by
  decide

/-- C5 amended: `attention()`, `occlusion_attention()` and `attention_area()`
return the non-preceding variant when `is_prioritized_` is set and the full
variant otherwise, while `occlusion_attention_area()` returns the full
occlusion-attention polygon list regardless of the flag. -/
theorem prioritized_accessor_selection (il : IntersectionLanelets) :
    (il.is_prioritized_ = true →
      il.attention = il.attention_non_preceding_ ∧
      il.occlusion_attention = il.attention_non_preceding_ ∧
      il.attention_area = il.attention_non_preceding_area_) ∧
    (il.is_prioritized_ = false →
      il.attention = il.attention_ ∧
      il.occlusion_attention = il.occlusion_attention_ ∧
      il.attention_area = il.attention_area_) ∧
    il.occlusion_attention_area = il.occlusion_attention_area_ := by
  refine ⟨fun h => ?_, fun h => ?_, rfl⟩ <;>
    simp [IntersectionLanelets.attention, IntersectionLanelets.occlusion_attention,
      IntersectionLanelets.attention_area, h]

/-- Witness for the amended C5, at one prioritized and one non-prioritized
concrete value. -/
theorem prioritized_accessor_selection_witness :
    (c5Lanelets.attention = c5Lanelets.attention_non_preceding_ ∧
      c5Lanelets.occlusion_attention = c5Lanelets.attention_non_preceding_ ∧
      c5Lanelets.attention_area = c5Lanelets.attention_non_preceding_area_) ∧
    (c5LaneletsOff.attention = c5LaneletsOff.attention_ ∧
      c5LaneletsOff.occlusion_attention = c5LaneletsOff.occlusion_attention_ ∧
      c5LaneletsOff.attention_area = c5LaneletsOff.attention_area_) :=
  ⟨(prioritized_accessor_selection c5Lanelets).1 rfl,
    (prioritized_accessor_selection c5LaneletsOff).2.1 rfl⟩

/-- C2: an object appears among the stuck classifications of
`checkStuckVehicleInIntersection` only if its speed is below the stuck
velocity threshold and it overlaps the detection area; in particular an
object whose speed exceeds the threshold is never classified stuck, whatever
its footprint overlap. -/
theorem stuck_classification_requires_slow_overlap (objs : List PredictedObject)
    (thr : ℚ) (o : PredictedObject)
    (h : o ∈ (checkStuckVehicleInIntersection objs thr).2) :
    o.speed < thr ∧ o.overlaps_stuck_area = true := by
  induction objs with
  | nil => simp [checkStuckVehicleInIntersection] at h
  | cons a rest ih =>
    rw [checkStuckVehicleInIntersection] at h
    by_cases hc : a.speed < thr ∧ a.overlaps_stuck_area = true
    · rw [if_pos hc] at h
      rcases List.mem_cons.mp h with h | h
      · exact h ▸ hc
      · exact ih h
    · rw [if_neg hc] at h
      exact ih h

/-- Witness for C2: a concrete slow overlapping object is classified stuck,
and the theorem recovers that its speed is below the threshold. -/
theorem stuck_classification_requires_slow_overlap_witness :
    (⟨1, true⟩ : PredictedObject).speed < 2 ∧
      (⟨1, true⟩ : PredictedObject).overlaps_stuck_area = true :=
  stuck_classification_requires_slow_overlap [⟨1, true⟩] 2 ⟨1, true⟩ (by decide)

end BehaviorVelocityPlanner

namespace BehaviorVelocityPlanner

/-- C6: `getTrafficPrioritizedLevel` always returns one of exactly the three
levels; a red-or-arrow signal maps to `FULLY_PRIORITIZED`, an amber signal
(without arrow) to `PARTIALLY_PRIORITIZED`, a green or unknown signal
(without arrow) to `NOT_PRIORITIZED`, and a lane missing from the signal map
to `NOT_PRIORITIZED`. -/
theorem traffic_prioritized_level_cases (lane : Int)
    (tl_infos : List (Int × TrafficSignalStamped)) :
    (getTrafficPrioritizedLevel lane tl_infos = .FULLY_PRIORITIZED ∨
      getTrafficPrioritizedLevel lane tl_infos = .PARTIALLY_PRIORITIZED ∨
      getTrafficPrioritizedLevel lane tl_infos = .NOT_PRIORITIZED) ∧
    (∀ sig, lookupSignal tl_infos lane = some sig →
      ((sig.color = .red ∨ sig.has_arrow = true) →
        getTrafficPrioritizedLevel lane tl_infos = .FULLY_PRIORITIZED) ∧
      (sig.color = .amber → sig.has_arrow = false →
        getTrafficPrioritizedLevel lane tl_infos = .PARTIALLY_PRIORITIZED) ∧
      ((sig.color = .green ∨ sig.color = .unknown) → sig.has_arrow = false →
        getTrafficPrioritizedLevel lane tl_infos = .NOT_PRIORITIZED)) ∧
    (lookupSignal tl_infos lane = none →
      getTrafficPrioritizedLevel lane tl_infos = .NOT_PRIORITIZED) := by
  have hsome : ∀ sig, lookupSignal tl_infos lane = some sig →
      getTrafficPrioritizedLevel lane tl_infos =
        (if sig.color = .red ∨ sig.has_arrow = true then .FULLY_PRIORITIZED
          else if sig.color = .amber then .PARTIALLY_PRIORITIZED
          else .NOT_PRIORITIZED) := by
    intro sig hsig
    rw [getTrafficPrioritizedLevel, hsig]
  have hnone : lookupSignal tl_infos lane = none →
      getTrafficPrioritizedLevel lane tl_infos = .NOT_PRIORITIZED := by
    intro h
    rw [getTrafficPrioritizedLevel, h]
  refine ⟨?_, ?_, hnone⟩
  · cases h : lookupSignal tl_infos lane with
    | none => rw [hnone h]; tauto
    | some sig =>
      rw [hsome sig h]
      split_ifs <;> tauto
  · intro sig hsig
    rw [hsome sig hsig]
    refine ⟨fun h1 => ?_, fun ha hn => ?_, fun hg hn => ?_⟩
    · rw [if_pos h1]
    · have h1 : ¬(sig.color = .red ∨ sig.has_arrow = true) := by
        rintro (h | h) <;> simp_all
      rw [if_neg h1, if_pos ha]
    · have h1 : ¬(sig.color = .red ∨ sig.has_arrow = true) := by
        rcases hg with hg | hg <;> rintro (h | h) <;> simp_all
      have h2 : ¬sig.color = .amber := by
        rcases hg with hg | hg <;> simp_all
      rw [if_neg h1, if_neg h2]

/-- Witness for C6: amber without arrow at a mapped lane yields
`PARTIALLY_PRIORITIZED`, and an unmapped lane yields `NOT_PRIORITIZED`. -/
theorem traffic_prioritized_level_cases_witness :
    getTrafficPrioritizedLevel 1 [(1, ⟨.amber, false⟩)] = .PARTIALLY_PRIORITIZED ∧
      getTrafficPrioritizedLevel 2 [(1, ⟨.amber, false⟩)] = .NOT_PRIORITIZED :=
  ⟨((traffic_prioritized_level_cases 1 [(1, ⟨.amber, false⟩)]).2.1
      ⟨.amber, false⟩ (by decide)).2.1 rfl rfl,
    (traffic_prioritized_level_cases 2 [(1, ⟨.amber, false⟩)]).2.2 (by decide)⟩

/-- Auxiliary: `findLaneIdsInterval` is absent exactly when no point of the
sequence carries a lane id from the given set. -/
theorem findLaneIdsInterval_eq_none_iff (ps : List (List Int)) (ids : List Int) :
    findLaneIdsInterval ps ids = none ↔ ∀ p ∈ ps, hasLaneIds p ids = false := by
  induction ps with
  | nil => simp [findLaneIdsInterval]
  | cons p rest ih =>
    rw [findLaneIdsInterval]
    by_cases hp : hasLaneIds p ids
    · rw [if_pos hp]
      simp [hp]
    · rw [if_neg hp]
      simp only [Option.map_eq_none', ih, List.mem_cons, Bool.not_eq_true] at *
      constructor
      · rintro h q (rfl | hq)
        · exact hp
        · exact h q hq
      · intro h q hq
        exact h q (Or.inr hq)

/-- C7: `generateInterpolatedPath` returns nothing exactly when the target
lane id, through its associative lane-id set, appears on no point of the
path; whenever some occurrence exists it returns an `InterpolatedPathInfo`
value. -/
theorem generate_interpolated_path_none_iff (lane_id : Int) (ids : List Int)
    (input_path : List (List Int)) (ds : ℚ) :
    (generateInterpolatedPath lane_id ids input_path ds = none ↔
      ∀ p ∈ input_path, hasLaneIds p ids = false) ∧
    ((∃ p ∈ input_path, hasLaneIds p ids = true) →
      (generateInterpolatedPath lane_id ids input_path ds).isSome = true) := by
  have hmain : generateInterpolatedPath lane_id ids input_path ds = none ↔
      findLaneIdsInterval input_path ids = none := by
    rw [generateInterpolatedPath]
    cases findLaneIdsInterval input_path ids <;> simp
  constructor
  · rw [hmain]
    exact findLaneIdsInterval_eq_none_iff input_path ids
  · rintro ⟨p, hp, hlane⟩
    rw [Option.isSome_iff_ne_none]
    intro hnone
    have hall := (findLaneIdsInterval_eq_none_iff input_path ids).mp (hmain.mp hnone)
    have hfalse := hall p hp
    rw [hlane] at hfalse
    cases hfalse

end BehaviorVelocityPlanner

namespace BehaviorVelocityPlanner

/-- Witness for C7: a path carrying the target lane id yields a value. -/
theorem generate_interpolated_path_witness :
    (generateInterpolatedPath 1 [1] [[1]] 1).isSome = true :=
  (generate_interpolated_path_none_iff 1 [1] [[1]] 1).2 ⟨[1], by decide, by decide⟩

/-- C3 counterexample: when the first computation finds no conflicting
overlap, `first_conflicting_area_` stays empty, and a second computation for
the same associative lane-id set whose live conflicting set does overlap the
path fills it, so the two computations do not yield identical values. -/
theorem first_area_recompute_differs :
    (intersectionLaneletsCycle (none, none) emptyLiveSets false [] []).first_conflicting_area_ = none ∧
    (intersectionLaneletsCycle
        ((intersectionLaneletsCycle (none, none) emptyLiveSets false [] []).first_conflicting_area_,
          (intersectionLaneletsCycle (none, none) emptyLiveSets false [] []).first_attention_area_)
        emptyLiveSets false [(⟨1⟩, some 0)] []).first_conflicting_area_ = some ⟨1⟩ := by
  decide

/-- C3 amended: once a computation has produced first conflicting/attention
areas, any later recomputation for the same associative lane-id set — which
reuses them as its cache — yields the identical values, whatever its live
lanelet sets, prioritized flag and path overlaps are. -/
theorem first_area_recompute_stable
    (cache : Option CompoundPolygon3d × Option CompoundPolygon3d)
    (live live2 : LiveLaneletSets) (prio prio2 : Bool)
    (ce ae ce2 ae2 : List (CompoundPolygon3d × Option Nat))
    (a b : CompoundPolygon3d)
    (hconf : (intersectionLaneletsCycle cache live prio ce ae).first_conflicting_area_ =
      some a)
    (hatt : (intersectionLaneletsCycle cache live prio ce ae).first_attention_area_ =
      some b) :
    (intersectionLaneletsCycle
        ((intersectionLaneletsCycle cache live prio ce ae).first_conflicting_area_,
          (intersectionLaneletsCycle cache live prio ce ae).first_attention_area_)
        live2 prio2 ce2 ae2).first_conflicting_area_ = some a ∧
    (intersectionLaneletsCycle
        ((intersectionLaneletsCycle cache live prio ce ae).first_conflicting_area_,
          (intersectionLaneletsCycle cache live prio ce ae).first_attention_area_)
        live2 prio2 ce2 ae2).first_attention_area_ = some b := by
  rw [hconf, hatt]
  constructor <;>
    simp [intersectionLaneletsCycle, IntersectionLanelets.update, getObjectiveLanelets]

/-- Witness for the amended C3 at a concrete first computation that finds
both areas. -/
theorem first_area_recompute_stable_witness :
    (intersectionLaneletsCycle
        ((intersectionLaneletsCycle (none, none) emptyLiveSets false
            [(⟨1⟩, some 3)] [(⟨2⟩, some 4)]).first_conflicting_area_,
          (intersectionLaneletsCycle (none, none) emptyLiveSets false
            [(⟨1⟩, some 3)] [(⟨2⟩, some 4)]).first_attention_area_)
        emptyLiveSets true [(⟨9⟩, some 0)] [(⟨8⟩, some 0)]).first_conflicting_area_ =
        some ⟨1⟩ ∧
    (intersectionLaneletsCycle
        ((intersectionLaneletsCycle (none, none) emptyLiveSets false
            [(⟨1⟩, some 3)] [(⟨2⟩, some 4)]).first_conflicting_area_,
          (intersectionLaneletsCycle (none, none) emptyLiveSets false
            [(⟨1⟩, some 3)] [(⟨2⟩, some 4)]).first_attention_area_)
        emptyLiveSets true [(⟨9⟩, some 0)] [(⟨8⟩, some 0)]).first_attention_area_ =
        some ⟨2⟩ :=
  first_area_recompute_stable (none, none) emptyLiveSets emptyLiveSets false true
    [(⟨1⟩, some 3)] [(⟨2⟩, some 4)] [(⟨9⟩, some 0)] [(⟨8⟩, some 0)] ⟨1⟩ ⟨2⟩
    (by decide) (by decide)

/-- C8 counterexample: two distinct `IntersectionStopLines` values agree on
every optional index field and on the pass-judge index but differ in the
mandatory `closest_idx` field, and the struct has four, not five, optional
index fields — so the record does not consist of five optional indices plus
a pass-judge index. -/
theorem stop_lines_shape_differs :
    stopLinesA ≠ stopLinesB ∧
    stopLinesA.optionalFields = stopLinesB.optionalFields ∧
    stopLinesA.pass_judge_line = stopLinesB.pass_judge_line ∧
    stopLinesA.optionalFields.length = 4 := by
  decide

/-- C8 amended: `IntersectionStopLines` consists of a mandatory closest
index, four optional path indices and a mandatory pass-judge index, and
`generateIntersectionStopLines` clamps the pass-judge index to zero whenever
its computed value is negative. -/
theorem stop_lines_shape_and_pass_judge_clamp (p : StopLineParams)
    (s : IntersectionStopLines)
    (hgen : generateIntersectionStopLines p = some s) :
    s.optionalFields.length = 4 ∧
    s.pass_judge_line = (passJudgeRaw p).toNat ∧
    (passJudgeRaw p < 0 → s.pass_judge_line = 0) := by
  cases hatt : p.att_entry with
  | none =>
    rw [generateIntersectionStopLines, hatt] at hgen
    cases hgen
  | some att =>
    rw [generateIntersectionStopLines, hatt] at hgen
    cases hgen
    refine ⟨rfl, rfl, fun hneg => ?_⟩
    exact Int.toNat_of_nonpos (le_of_lt hneg)

/-- Witness for the amended C8: concrete inputs whose raw pass-judge value is
negative produce a pass-judge index of zero. -/
theorem stop_lines_pass_judge_clamp_witness :
    (⟨0, none, none, none, some 0, 0⟩ : IntersectionStopLines).pass_judge_line = 0 :=
  (stop_lines_shape_and_pass_judge_clamp c8Params ⟨0, none, none, none, some 0, 0⟩
    (by decide)).2.2 (by decide)

end BehaviorVelocityPlanner

namespace BehaviorVelocityPlanner

/-- Auxiliary: the profile always starts with the accumulated time so far and
the distance at the start index. -/
theorem passingTimePairs_head (dist v : Nat → ℚ) (i n : Nat) (t : ℚ) :
    (passingTimePairs dist v i n t).head? = some (t, dist i) := by
  cases n <;> rfl

/-- Auxiliary: the profile is never empty. -/
theorem passingTimePairs_ne_nil (dist v : Nat → ℚ) (i n : Nat) (t : ℚ) :
    passingTimePairs dist v i n t ≠ [] := by
  cases n <;> simp [passingTimePairs]

/-- Auxiliary: the distance of the profile's final entry is the distance at
the final index. -/
theorem passingTimePairs_getLast (dist v : Nat → ℚ) (n : Nat) : ∀ i t,
    ((passingTimePairs dist v i n t).getLast?).map Prod.snd = some (dist (i + n)) := by
  induction n with
  | zero => intro i t; rfl
  | succ n ih =>
    intro i t
    rw [show i + (n + 1) = (i + 1) + n by omega]
    rw [passingTimePairs]
    rcases hrec : passingTimePairs dist v (i + 1) n (t + (dist (i + 1) - dist i) / v i)
      with _ | ⟨q, qs⟩
    · exact absurd hrec (passingTimePairs_ne_nil dist v (i + 1) n _)
    · rw [List.getLast?_cons_cons, ← hrec, ih]

/-- Auxiliary: the profile's length is the index count. -/
theorem passingTimePairs_length (dist v : Nat → ℚ) (n : Nat) : ∀ i t,
    (passingTimePairs dist v i n t).length = n + 1 := by
  induction n with
  | zero => intro i t; rfl
  | succ n ih => intro i t; rw [passingTimePairs, List.length_cons, ih]

/-- Auxiliary: with positive per-index velocities and strictly increasing
distances over the covered range, consecutive profile entries strictly
increase in both time and distance. -/
theorem passingTimePairs_chain (dist v : Nat → ℚ) (n : Nat) : ∀ i t,
    (∀ k, i ≤ k → k < i + n → dist k < dist (k + 1)) →
    (∀ k, 0 < v k) →
    List.Chain' (fun x y : ℚ × ℚ => x.1 < y.1 ∧ x.2 < y.2)
      (passingTimePairs dist v i n t) := by
  induction n with
  | zero => intro i t _ _; simp [passingTimePairs]
  | succ n ih =>
    intro i t hd hv
    rw [passingTimePairs]
    refine List.chain'_cons'.mpr ⟨?_, ih (i + 1) _
      (fun k hk1 hk2 => hd k (by omega) (by omega)) hv⟩
    intro y hy
    rw [passingTimePairs_head] at hy
    obtain rfl := Option.mem_some_iff.mp hy
    have hdi : dist i < dist (i + 1) := hd i le_rfl (by omega)
    have hstep : 0 < (dist (i + 1) - dist i) / v i :=
      div_pos (by linarith) (hv i)
    exact ⟨by linarith, hdi⟩

/-- Auxiliary: the per-index velocity used by the passing-time computation is
positive whenever both velocity floors are positive. -/
theorem effectiveVelocity_pos (use_upstream : Bool) (upstream : Nat → ℚ)
    (iv ev uv : ℚ) (hev : 0 < ev) (huv : 0 < uv) (k : Nat) :
    0 < effectiveVelocity use_upstream upstream iv ev uv k := by
  rw [effectiveVelocity]
  split_ifs
  · exact lt_of_lt_of_le huv (le_max_right _ _)
  · exact lt_of_lt_of_le hev (le_max_right _ _)

/-- C4: under positive velocity floors and a strictly increasing distance
function between the closest index and the last stop-line candidate index,
the time-distance profile of `calcIntersectionPassingTime` is strictly
increasing in both the time and the distance component, its first entry is
the start delay paired with the distance at the closest index, and its last
entry's distance is the distance at the last stop-line candidate index. -/
theorem passing_time_profile (dist upstream_velocity : Nat → ℚ)
    (closest_idx last_candidate_idx : Nat)
    (time_delay intersection_velocity minimum_ego_velocity : ℚ)
    (use_upstream_velocity : Bool) (minimum_upstream_velocity : ℚ)
    (hcl : closest_idx ≤ last_candidate_idx)
    (hd : ∀ k, closest_idx ≤ k → k < last_candidate_idx → dist k < dist (k + 1))
    (hev : 0 < minimum_ego_velocity) (huv : 0 < minimum_upstream_velocity) :
    List.Chain' (fun x y : ℚ × ℚ => x.1 < y.1 ∧ x.2 < y.2)
      (calcIntersectionPassingTime dist upstream_velocity closest_idx
        last_candidate_idx time_delay intersection_velocity minimum_ego_velocity
        use_upstream_velocity minimum_upstream_velocity) ∧
    (calcIntersectionPassingTime dist upstream_velocity closest_idx
        last_candidate_idx time_delay intersection_velocity minimum_ego_velocity
        use_upstream_velocity minimum_upstream_velocity).head? =
      some (time_delay, dist closest_idx) ∧
    ((calcIntersectionPassingTime dist upstream_velocity closest_idx
        last_candidate_idx time_delay intersection_velocity minimum_ego_velocity
        use_upstream_velocity minimum_upstream_velocity).getLast?).map Prod.snd =
      some (dist last_candidate_idx) := by
  rw [calcIntersectionPassingTime]
  refine ⟨?_, passingTimePairs_head _ _ _ _ _, ?_⟩
  · refine passingTimePairs_chain _ _ _ _ _ (fun k hk1 hk2 => hd k hk1 (by omega)) ?_
    exact effectiveVelocity_pos use_upstream_velocity upstream_velocity
      intersection_velocity minimum_ego_velocity minimum_upstream_velocity hev huv
  · rw [passingTimePairs_getLast, show closest_idx + (last_candidate_idx - closest_idx) =
      last_candidate_idx by omega]

/-- Witness for C4 on a concrete three-point profile with unit spacing and
unit velocities. -/
theorem passing_time_profile_witness :
    List.Chain' (fun x y : ℚ × ℚ => x.1 < y.1 ∧ x.2 < y.2)
      (calcIntersectionPassingTime (fun k => (k : ℚ)) (fun _ => 1) 0 2 0 1 1 false 1) ∧
    (calcIntersectionPassingTime (fun k => (k : ℚ)) (fun _ => 1) 0 2 0 1 1 false 1).head? =
      some (0, ((0 : Nat) : ℚ)) ∧
    ((calcIntersectionPassingTime (fun k => (k : ℚ)) (fun _ => 1) 0 2 0 1 1 false 1).getLast?).map
      Prod.snd = some (((2 : Nat) : ℚ)) :=
  passing_time_profile (fun k => (k : ℚ)) (fun _ => 1) 0 2 0 1 1 false 1
    (by norm_num) (fun k _ hk => by push_cast; linarith) (by norm_num) (by norm_num)

end BehaviorVelocityPlanner

namespace BehaviorVelocityPlanner

/-- C1 counterexample: `generateIntersectionStopLines` at concrete inputs
produces a value with all four optional indices present — stuck 5, default
10, first-attention 5, occlusion-peeking 7 — whose default stop line lies
beyond its first-attention stop line, so the indices are not non-decreasing
in the claimed order. -/
theorem stop_lines_order_violated :
    (generateIntersectionStopLines c1Params).map stopLinesOrdered = some false ∧
    (generateIntersectionStopLines c1Params).map IntersectionStopLines.optionalFields =
      some [some 5, some 10, some 5, some 7] := by
  decide

/-- C1 amended: for a produced `IntersectionStopLines` with all four optional
indices present, under a nonnegative margin and peeking offset, a detection
entry inside the detection area and a stuck base point at or before the
conflicting entry, the stuck stop line is at or before the default stop line,
the first-attention stop line is at or before the occlusion-peeking stop
line, and the pass-judge line — a `Nat`, hence never negative — is at or
before the first-attention stop line; the default and first-attention lines
are however not comparable in general. -/
theorem stop_lines_partial_order (p : StopLineParams) (s : IntersectionStopLines)
    (att conf : Int) (hatt : p.att_entry = some att) (hconf : p.conf_entry = some conf)
    (hm : 0 ≤ p.margin) (hp : 0 ≤ p.peeking) (hfar : att ≤ p.det_far)
    (hbase : p.use_stuck_stopline = true → p.lane_start ≤ conf)
    (hgen : generateIntersectionStopLines p = some s)
    (a b c d : Nat)
    (hs : s.stuck_stop_line = some a) (hd : s.default_stop_line = some b)
    (hf : s.first_attention_stop_line = some c)
    (ho : s.occlusion_peeking_stop_line = some d) :
    a ≤ b ∧ c ≤ d ∧ s.pass_judge_line ≤ c := by
  rw [generateIntersectionStopLines, hatt] at hgen
  obtain rfl := Option.some_inj.mp hgen
  dsimp only at hs hd hf ho ⊢
  set base := if p.use_stuck_stopline then p.lane_start else conf with hbdef
  have hbc : base ≤ conf := by
    rw [hbdef]
    by_cases hu : p.use_stuck_stopline = true
    · rw [if_pos hu]; exact hbase hu
    · rw [if_neg hu]
  have hsr : stuckStopLineRaw p att = some (min (base - p.margin) att) := by
    rw [stuckStopLineRaw, hconf]
    rfl
  have ha : a = (min (base - p.margin) att).toNat := by
    rw [hsr] at hs
    simp only [Option.map_some'] at hs
    exact (Option.some_inj.mp hs).symm
  have hfnn : ¬ att - p.margin < 0 := by
    intro hneg
    rw [if_pos hneg] at hf
    cases hf
  have hc : c = (att - p.margin).toNat := by
    rw [if_neg hfnn] at hf
    exact (Option.some_inj.mp hf).symm
  have hdd : d = (min (att + p.peeking) p.det_far).toNat :=
    (Option.some_inj.mp ho).symm
  obtain ⟨dRaw, hdr, hdnn, hb⟩ :
      ∃ dRaw, defaultStopLineRaw p att = some dRaw ∧ ¬ dRaw < 0 ∧ b = dRaw.toNat := by
    rcases hdr : defaultStopLineRaw p att with _ | dRaw
    · rw [hdr] at hd
      simp at hd
    · rw [hdr] at hd
      simp only [Option.some_bind] at hd
      by_cases hneg : dRaw < 0
      · rw [if_pos hneg] at hd; cases hd
      · rw [if_neg hneg] at hd
        exact ⟨dRaw, rfl, hneg, (Option.some_inj.mp hd).symm⟩
  have hsd : min (base - p.margin) att ≤ dRaw := by
    rcases hms : p.map_stop with _ | m
    · rw [defaultStopLineRaw, hms, hconf] at hdr
      simp only [Option.map_some'] at hdr
      obtain rfl := Option.some_inj.mp hdr
      have h1 : min (base - p.margin) att ≤ base - p.margin := min_le_left _ _
      omega
    · rw [defaultStopLineRaw, hms, hsr] at hdr
      dsimp only at hdr
      by_cases hsm : min (base - p.margin) att ≤ m
      · rw [if_pos hsm] at hdr
        obtain rfl := Option.some_inj.mp hdr
        exact hsm
      · rw [if_neg hsm, hconf] at hdr
        simp only [Option.map_some'] at hdr
        obtain rfl := Option.some_inj.mp hdr
        have h1 : min (base - p.margin) att ≤ base - p.margin := min_le_left _ _
        omega
  refine ⟨?_, ?_, ?_⟩
  · rw [ha, hb]
    exact Int.toNat_le_toNat hsd
  · rw [hc, hdd]
    exact Int.toNat_le_toNat (le_min (by omega) (by omega))
  · have hpj : passJudgeRaw p = min (min (base - p.margin) att) (att - p.margin) := by
      rw [passJudgeRaw, hatt]
      dsimp only
      rw [hsr]
    rw [hpj, hc]
    exact Int.toNat_le_toNat (min_le_right _ _)

/-- Witness for the amended C1 at concrete inputs where all four optional
indices are present. -/
theorem stop_lines_partial_order_witness :
    (5 : Nat) ≤ 9 ∧ (4 : Nat) ≤ 7 ∧
      (⟨0, some 5, some 9, some 4, some 7, 4⟩ : IntersectionStopLines).pass_judge_line ≤ 4 :=
  stop_lines_partial_order c1GoodParams ⟨0, some 5, some 9, some 4, some 7, 4⟩ 5 10
    (by decide) (by decide) (by decide) (by decide) (by decide) (by decide)
    (by decide) 5 9 4 7 (by decide) (by decide) (by decide) (by decide)

end BehaviorVelocityPlanner
